import Mathlib

/-!
Verification of the Lead Scoring & Reporting Engine of
`streamlit_gm_dashboard.py` (realestate-mvp).

Shallow embedding conventions:
  * A cell value of the tabular dataset is a `Value`: an integer, a string,
    or the missing/NaN marker.  Numeric columns of the data model are
    integers, so Python `int(x)` / `float(x)` conversion of a cell is
    modelled by `toIntOpt` (integer parsing; a conversion that raises in
    Python is `none` here).  Python `float(nan)` succeeds and yields NaN,
    but every subsequent band comparison on NaN is false, which lands in
    the same branch as the modelled `none`, so the observable result agrees.
  * `round(raw_total)` in `compute_score_row` is applied to an integer
    (every signal scorer returns an integer), where Python `round` is the
    identity; the model therefore omits it.
  * A row is an association list from column name to `Value` (Python dict
    with insertion order); a data frame is its column list plus its rows.
  * `sort_values("score", ascending=False)` is modelled by a descending
    insertion sort on the score column.  The model resolves ties by
    original order; pandas with the default quicksort gives no such
    guarantee, so only properties independent of tie order are settled
    against this model.
-/

namespace GMDashboard

/-- A cell of the tabular dataset: integer, string, or missing (NaN). -/
inductive Value where
  | vInt : Int → Value
  | vStr : String → Value
  | nan : Value
deriving DecidableEq

/-- Python `pd.isna` on a cell. -/
def isNa : Value → Bool
  | Value.nan => true
  | _ => false

/-- Python `str(x)` on a cell (`str(nan)` prints "nan"). -/
def pyStr : Value → String
  | Value.vInt n => toString n
  | Value.vStr s => s
  | Value.nan => "nan"

/-- Whitespace test used by the model of Python `strip`. -/
def isSpaceChar (c : Char) : Bool :=
  c = ' ' || c = '\t' || c = '\n' || c = '\r'

/-- Model of Python `strip()` on a character list. -/
def trimChars (l : List Char) : List Char :=
  ((l.dropWhile isSpaceChar).reverse.dropWhile isSpaceChar).reverse

/-- Parse a nonempty all-digit character list as a natural number. -/
def parseNatChars (l : List Char) : Option Nat :=
  if l.isEmpty || l.any (fun c => !c.isDigit) then none
  else some (l.foldl (fun acc c => 10 * acc + (c.toNat - 48)) 0)

/-- Model of Python `int(s)` on a string: optional surrounding whitespace,
optional sign, a nonempty digit run; anything else raises (`none`). -/
def pyIntParse (s : String) : Option Int :=
  match trimChars s.data with
  | '-' :: rest => (parseNatChars rest).map (fun n => -(n : Int))
  | '+' :: rest => (parseNatChars rest).map (fun n => (n : Int))
  | l => (parseNatChars l).map (fun n => (n : Int))

/-- Python `int(x)` (and the integer-valued cases of `float(x)`) on a cell:
`none` models the conversion raising. -/
def toIntOpt : Value → Option Int
  | Value.vInt n => some n
  | Value.vStr s => pyIntParse s
  | Value.nan => none

/-- A row: association list column name to value, in insertion order. -/
abbrev Row : Type := List (String × Value)

/-- Python `row.get(key, default)`. -/
def rowGet (r : Row) (k : String) (d : Value) : Value :=
  (List.lookup k r).getD d

/-- Python dict assignment `r[k] = v`: overwrite in place or append. -/
def rowSet (r : Row) (k : String) (v : Value) : Row :=
  if (r.map Prod.fst).contains k then
    r.map (fun kv => if kv.1 == k then (k, v) else kv)
  else
    r ++ [(k, v)]

/-- `score_recency` (src/streamlit_gm_dashboard.py lines 29-40). -/
def score_recency (days : Value) : Nat :=
  match toIntOpt days with
  | none => 0
  | some d =>
    if d ≤ 1 then 20
    else if d ≤ 7 then 15
    else if d ≤ 30 then 10
    else 0

/-- `score_frequency` (lines 42-53). -/
def score_frequency (n_searches_7d : Value) : Nat :=
  match toIntOpt n_searches_7d with
  | none => 5
  | some n =>
    if 10 ≤ n then 20
    else if 5 ≤ n then 15
    else if 2 ≤ n then 10
    else 5

/-- `score_budget` (lines 55-64): variance = max - min, banded. -/
def score_budget (min_b max_b : Value) : Nat :=
  match toIntOpt min_b, toIntOpt max_b with
  | some a, some b =>
    let variance := b - a
    if variance ≤ 500000 then 15
    else if variance ≤ 1000000 then 10
    else 5
  | _, _ => 5

/-- `score_project_focus` (lines 66-77). -/
def score_project_focus (kw_matches : Value) : Nat :=
  match toIntOpt kw_matches with
  | none => 0
  | some m =>
    if 3 ≤ m then 15
    else if m = 2 then 10
    else if m = 1 then 5
    else 0

/-- Model of Python `s.split(",")` on a character list. -/
def splitOnComma : List Char → List (List Char)
  | [] => [[]]
  | c :: rest =>
    match splitOnComma rest with
    | [] => if c = ',' then [[], []] else [[c]]
    | h :: t => if c = ',' then [] :: h :: t else (c :: h) :: t

/-- `score_cross_platform` (lines 79-87): split on comma, strip, drop
empties, band by count. -/
def score_cross_platform (platforms_str : Value) : Nat :=
  if isNa platforms_str || (trimChars (pyStr platforms_str).data).isEmpty then 5
  else
    let platforms :=
      ((splitOnComma (pyStr platforms_str).data).map trimChars).filter
        (fun p => !p.isEmpty)
    if 3 ≤ platforms.length then 20
    else if platforms.length = 2 then 15
    else 5

/-- `score_engagement` (lines 89-94). -/
def score_engagement (viewed_mortgage : Value) : Nat :=
  match toIntOpt viewed_mortgage with
  | none => 5
  | some v => if v = 1 then 10 else 5

/-- Substring occurrence on character lists. -/
def subOccurs (needle : List Char) : List Char → Bool
  | [] => needle.isEmpty
  | c :: rest => needle.isPrefixOf (c :: rest) || subOccurs needle rest

/-- Python `needle in haystack` on strings: substring containment. -/
def strContains (haystack needle : String) : Bool :=
  subOccurs needle.data haystack.data

/-- Model of Python `s.lower()`. -/
def pyLower (s : String) : String :=
  String.mk (s.data.map Char.toLower)

/-- `device_bonus` (lines 96-105): additive case-insensitive token bonuses. -/
def device_bonus (device_str : Value) : Nat :=
  let d := pyLower (pyStr device_str)
  let bonus := 0
  let bonus :=
    if strContains d "iphone" || strContains d "ipad" || strContains d "ios"
    then bonus + 3 else bonus
  let bonus :=
    if strContains d "macbook" || strContains d "desktop" ||
       strContains d "windows"
    then bonus + 5 else bonus
  let bonus := if strContains d "android" then bonus + 1 else bonus
  bonus

/-- The per-row signal breakdown dict built by `compute_score_row`. -/
structure Breakdown where
  recency : Nat
  frequency : Nat
  budget : Nat
  project_focus : Nat
  cross_platform : Nat
  engagement : Nat
  device_bonus : Nat
  raw_total : Nat
deriving DecidableEq

/-- `compute_score_row` (lines 107-118): sum the seven signals, cap at 100
(`round` on an integer is the identity and is omitted, see module header). -/
def compute_score_row (row : Row) : Nat × Breakdown :=
  let r := score_recency (rowGet row "last_seen_days" (Value.vStr ""))
  let f := score_frequency (rowGet row "searches_last_7d" (Value.vStr ""))
  let b := score_budget (rowGet row "budget_min" (Value.vInt 0))
    (rowGet row "budget_max" (Value.vInt 0))
  let p := score_project_focus (rowGet row "project_keywords_matches" (Value.vInt 0))
  let c := score_cross_platform (rowGet row "platforms" (Value.vStr ""))
  let e := score_engagement (rowGet row "viewed_mortgage_calc" (Value.vInt 0))
  let dev := device_bonus (rowGet row "device" (Value.vStr ""))
  let raw_total := r + f + b + p + c + e + dev
  let score_val := min raw_total 100
  (score_val, ⟨r, f, b, p, c, e, dev, raw_total⟩)

/-- `tag_from_score` (lines 120-125). -/
def tag_from_score (s : Int) : String :=
  if 80 ≤ s then "Hot 🔥"
  else if 60 ≤ s then "Warm"
  else "Cold"

/-- `reasoning_and_action` (lines 127-151): reason phrases appended in the
fixed source order, then the action chosen by score band. -/
def reasoning_and_action (score : Int) (breakdown : Breakdown) : String × String :=
  let reasons : List String := []
  let reasons :=
    if 15 ≤ breakdown.recency then reasons ++ ["recent activity"] else reasons
  let reasons :=
    if 15 ≤ breakdown.frequency then reasons ++ ["high frequency of searches"]
    else reasons
  let reasons :=
    if 10 ≤ breakdown.project_focus then reasons ++ ["project-specific interest"]
    else reasons
  let reasons :=
    if 15 ≤ breakdown.cross_platform then reasons ++ ["cross-platform engagement"]
    else reasons
  let reasons :=
    if 10 ≤ breakdown.engagement then reasons ++ ["engaged with mortgage/CTA"]
    else reasons
  let reasons :=
    if 3 ≤ breakdown.device_bonus then reasons ++ ["affluent device signal"]
    else reasons
  let reason_text :=
    if reasons.isEmpty then "activity recorded"
    else String.intercalate ", " reasons
  let action :=
    if 85 ≤ score then
      "Call immediately during buyer\x27s evening hours; highlight payment plan and priority units."
    else if 70 ≤ score then
      "Send WhatsApp with project brochure and ROI comparison; follow up with call in 24-48 hrs."
    else if 60 ≤ score then
      "Send targeted email / WhatsApp with similar listings and financing options."
    else
      "Add to nurture drip; retarget with video creatives."
  (reason_text, action)

/-- A data frame: the column list plus the rows. -/
structure Frame where
  columns : List String
  rows : List Row
deriving DecidableEq

/-- Scoring of one raw row in the upload loop (lines 260-270): attach
`score`, `tag`, `reasoning`, `next_action` to the row dict. -/
def score_one_row (r : Row) : Row :=
  let sc := (compute_score_row r).1
  let breakdown := (compute_score_row r).2
  let tag := tag_from_score (sc : Int)
  let ra := reasoning_and_action (sc : Int) breakdown
  rowSet (rowSet (rowSet (rowSet r "score" (Value.vInt (sc : Int)))
    "tag" (Value.vStr tag)) "reasoning" (Value.vStr ra.1))
    "next_action" (Value.vStr ra.2)

/-- The Dataset Scorer: the upload/score branch at module level
(lines 253-272).  If a `score` column is present the frame is passed
through unchanged; otherwise every row is scored independently. -/
def dataset_scorer (df : Frame) : Frame :=
  if "score" ∈ df.columns then df
  else
    { columns := df.columns ++ ["score", "tag", "reasoning", "next_action"],
      rows := df.rows.map score_one_row }

/-- The integer value of the `score` column of a row (a valid scored frame
carries integer scores). -/
def scoreOf (r : Row) : Int :=
  match List.lookup "score" r with
  | some (Value.vInt n) => n
  | _ => 0

/-- `(df[score] >= 80).sum()` in `build_pdf_bytes` (line 174). -/
def pdf_hot_count (df : List Row) : Nat :=
  df.countP (fun r => decide (80 ≤ scoreOf r))

/-- `((df[score] >= 60) & (df[score] < 80)).sum()` (line 175). -/
def pdf_warm_count (df : List Row) : Nat :=
  df.countP (fun r => decide (60 ≤ scoreOf r ∧ scoreOf r < 80))

/-- `(df[score] < 60).sum()` (line 176). -/
def pdf_cold_count (df : List Row) : Nat :=
  df.countP (fun r => decide (scoreOf r < 60))

/-- `len(df)` (line 173). -/
def pdf_total_leads (df : List Row) : Nat := df.length

/-- Insert a row into a list already sorted by score descending, after all
rows of score greater than or equal to its own. -/
def insertByScoreDesc (r : Row) : List Row → List Row
  | [] => [r]
  | y :: ys =>
    if scoreOf r < scoreOf y then y :: insertByScoreDesc r ys
    else r :: y :: ys

/-- Model of `df.sort_values("score", ascending=False)` (lines 223 and 386):
descending insertion sort on the score column.  See the module header for
the tie-order caveat. -/
def sort_values_score_desc (df : List Row) : List Row :=
  df.foldr insertByScoreDesc []

/-- The leaderboard rows selected inside `build_pdf_bytes` (line 223):
sort by score descending and keep the first 15 rows. -/
def build_pdf_top_rows (df : List Row) : List Row :=
  (sort_values_score_desc df).take 15

/-- The report pipeline of the PDF trigger (lines 386 and 391): cut the
filtered slice to `top_frame = filtered.sort_values(...).head(top_n)` and
hand it to `build_pdf_bytes`, whose leaderboard takes `.head(15)` again. -/
def report_leaderboard (filtered : List Row) (top_n : Nat) : List Row :=
  build_pdf_top_rows ((sort_values_score_desc filtered).take top_n)

/-- Modelled from the spec (for comparison with `reasoning_and_action`):
the documented ordered list of (threshold check, phrase) pairs of the
Reasoning Generator. -/
def spec_reason_pairs : List ((Breakdown → Bool) × String) :=
  [ (fun b => decide (15 ≤ b.recency), "recent activity"),
    (fun b => decide (15 ≤ b.frequency), "high frequency of searches"),
    (fun b => decide (10 ≤ b.project_focus), "project-specific interest"),
    (fun b => decide (15 ≤ b.cross_platform), "cross-platform engagement"),
    (fun b => decide (10 ≤ b.engagement), "engaged with mortgage/CTA"),
    (fun b => decide (3 ≤ b.device_bonus), "affluent device signal") ]

/-- Modelled from the spec (for comparison with `reasoning_and_action`):
evaluate the six checks in the fixed order, join triggered phrases with
comma+space, fall back to the generic phrase when none trigger. -/
def spec_reason_text (b : Breakdown) : String :=
  let triggered :=
    spec_reason_pairs.filterMap (fun pr => if pr.1 b then some pr.2 else none)
  if triggered.isEmpty then "activity recorded"
  else String.intercalate ", " triggered

/-- A concrete pre-scored one-row frame. -/
def c6frame : Frame :=
  { columns := ["lead_id", "score"],
    rows := [[("lead_id", Value.vStr "L1"), ("score", Value.vInt 91)]] }

/-- A concrete raw one-row frame (no `score` column). -/
def c7frame : Frame :=
  { columns := ["lead_id", "last_seen_days"],
    rows := [[("lead_id", Value.vStr "L2"),
              ("last_seen_days", Value.vStr "oops")]] }

/-- A concrete filtered slice of 16 rows with distinct scores. -/
def c2slice : List Row :=
  (List.range 16).map (fun i => [("score", Value.vInt (i : Int))])

/-- A concrete filtered slice of 3 rows. -/
def c2small : List Row :=
  [[("score", Value.vInt 90)], [("score", Value.vInt 70)],
   [("score", Value.vInt 95)]]

section Theorems

/-- Claim C1, counterexample: at score 80 the classifier does not return
the string "Hot"; it returns "Hot 🔥". -/
theorem tag_from_score_80_not_Hot : tag_from_score 80 ≠ "Hot" := by
  decide

/-- Claim C1, amended: for every score s, the classifier returns
"Hot 🔥" (not the bare "Hot") when 80 ≤ s, "Warm" when 60 ≤ s < 80 and
"Cold" when s < 60; the three bands are mutually exclusive, so no score is
mapped to two tiers. -/
theorem tag_from_score_bands (s : Int) :
    (80 ≤ s → tag_from_score s = "Hot 🔥") ∧
    (60 ≤ s → s < 80 → tag_from_score s = "Warm") ∧
    (s < 60 → tag_from_score s = "Cold") := by
  unfold tag_from_score
  refine ⟨fun h => ?_, fun h1 h2 => ?_, fun h => ?_⟩ <;>
    split_ifs <;> first | rfl | omega

/-- Claim C1, witness: the three bands of `tag_from_score_bands` at the
concrete scores 85, 70 and 10. -/
theorem tag_from_score_bands_witness :
    ((80 : Int) ≤ 85 ∧ tag_from_score 85 = "Hot 🔥") ∧
    ((60 : Int) ≤ 70 ∧ (70 : Int) < 80 ∧ tag_from_score 70 = "Warm") ∧
    ((10 : Int) < 60 ∧ tag_from_score 10 = "Cold") :=
  ⟨⟨by decide, (tag_from_score_bands 85).1 (by decide)⟩,
   ⟨by decide, by decide, (tag_from_score_bands 70).2.1 (by decide) (by decide)⟩,
   ⟨by decide, (tag_from_score_bands 10).2.2 (by decide)⟩⟩

/-- Claim C4: the three tier counts computed by the report builder
partition the total row count exactly, for every slice. -/
theorem tier_counts_partition (df : List Row) :
    pdf_hot_count df + pdf_warm_count df + pdf_cold_count df =
      pdf_total_leads df := by
  unfold pdf_hot_count pdf_warm_count pdf_cold_count pdf_total_leads
  induction df with
  | nil => rfl
  | cons r rest ih =>
    simp only [List.countP_cons, List.length_cons]
    rcases lt_trichotomy (scoreOf r) 60 with h | h | h <;>
      rcases lt_or_le (scoreOf r) 80 with h80 | h80 <;>
      simp only [decide_eq_true_eq] <;> split_ifs <;> omega

/-- Claim C5: for every row, the aggregator returns
score = min(raw_total, 100) where raw_total is the sum of the seven signal
contributions (round on an integer total is the identity), and the score
always lies in [0, 100]. -/
theorem compute_score_row_capped (row : Row) :
    (compute_score_row row).1 = min (compute_score_row row).2.raw_total 100 ∧
    (compute_score_row row).2.raw_total =
      (compute_score_row row).2.recency + (compute_score_row row).2.frequency +
      (compute_score_row row).2.budget + (compute_score_row row).2.project_focus +
      (compute_score_row row).2.cross_platform + (compute_score_row row).2.engagement +
      (compute_score_row row).2.device_bonus ∧
    0 ≤ (compute_score_row row).1 ∧ (compute_score_row row).1 ≤ 100 := by
  unfold compute_score_row
  refine ⟨rfl, rfl, Nat.zero_le _, ?_⟩
  exact Nat.min_le_right _ _

/-- Claim C9: `score_recency` is monotonically non-increasing over valid
integer inputs, with band values 20 for days ≤ 1, 15 for 2-7, 10 for 8-30
and 0 beyond. -/
theorem score_recency_monotone (d1 d2 : Int) :
    (d1 ≤ d2 → score_recency (Value.vInt d2) ≤ score_recency (Value.vInt d1)) ∧
    (d1 ≤ 1 → score_recency (Value.vInt d1) = 20) ∧
    (2 ≤ d1 → d1 ≤ 7 → score_recency (Value.vInt d1) = 15) ∧
    (8 ≤ d1 → d1 ≤ 30 → score_recency (Value.vInt d1) = 10) ∧
    (31 ≤ d1 → score_recency (Value.vInt d1) = 0) := by
  unfold score_recency toIntOpt
  refine ⟨fun h => ?_, fun h => ?_, fun h h7 => ?_, fun h h30 => ?_, fun h => ?_⟩ <;>
    simp only <;> split_ifs <;> omega

/-- Claim C9, witness: monotonicity at 2 ≤ 10 and the four bands at the
concrete inputs 0, 5, 20 and 40. -/
theorem score_recency_monotone_witness :
    ((2 : Int) ≤ 10 →
      score_recency (Value.vInt 10) ≤ score_recency (Value.vInt 2)) ∧
    score_recency (Value.vInt 0) = 20 ∧
    score_recency (Value.vInt 5) = 15 ∧
    score_recency (Value.vInt 20) = 10 ∧
    score_recency (Value.vInt 40) = 0 :=
  ⟨fun _ => (score_recency_monotone 2 10).1 (by decide),
   (score_recency_monotone 0 0).2.1 (by decide),
   (score_recency_monotone 5 0).2.2.1 (by decide) (by decide),
   (score_recency_monotone 20 0).2.2.2.1 (by decide) (by decide),
   (score_recency_monotone 40 0).2.2.2.2 (by decide)⟩

/-- Claim C10: an inverted budget range (min strictly above max) has
negative variance, which passes the first band check, so `score_budget`
returns 15, the highest budget band. -/
theorem score_budget_inverted_range (mn mx : Int) (h : mx < mn) :
    score_budget (Value.vInt mn) (Value.vInt mx) = 15 := by
  unfold score_budget toIntOpt
  simp only
  have hv : mx - mn ≤ 500000 := by omega
  simp [hv]

/-- Claim C10, witness: `score_budget` at the inverted concrete range
min = 900000, max = 100000. -/
theorem score_budget_inverted_range_witness :
    (100000 : Int) < 900000 ∧
    score_budget (Value.vInt 900000) (Value.vInt 100000) = 15 :=
  ⟨by decide, score_budget_inverted_range 900000 100000 (by decide)⟩

/-- Claim C6: the Dataset Scorer is a single top-level branch on the
presence of a `score` column; a pre-scored frame is passed through
entirely unchanged. -/
theorem dataset_scorer_prescored_passthrough (df : Frame)
    (h : "score" ∈ df.columns) : dataset_scorer df = df := by
  unfold dataset_scorer
  simp [h]

/-- Claim C6, witness: pass-through at a concrete pre-scored frame. -/
theorem dataset_scorer_prescored_passthrough_witness :
    "score" ∈ c6frame.columns ∧ dataset_scorer c6frame = c6frame :=
  ⟨by decide,
   dataset_scorer_prescored_passthrough c6frame (by decide)⟩

/-- Claim C7: every signal scorer is total with the documented default on
unparseable input (recency 0, frequency 5, project focus 0, engagement 5,
budget 5 whichever side fails to convert, cross-platform 5 on missing,
device bonus 0 on missing), and the Dataset Scorer maps every row of the
input, never aborting partway: output row count equals input row count. -/
theorem scorers_total_on_unparseable (v w : Value) (df : Frame)
    (h : toIntOpt v = none) :
    score_recency v = 0 ∧ score_frequency v = 5 ∧
    score_project_focus v = 0 ∧ score_engagement v = 5 ∧
    score_budget v w = 5 ∧ score_budget w v = 5 ∧
    score_cross_platform Value.nan = 5 ∧ device_bonus Value.nan = 0 ∧
    (dataset_scorer df).rows.length = df.rows.length := by
  refine ⟨?_, ?_, ?_, ?_, ?_, ?_, by decide, by decide, ?_⟩
  · unfold score_recency; rw [h]
  · unfold score_frequency; rw [h]
  · unfold score_project_focus; rw [h]
  · unfold score_engagement; rw [h]
  · unfold score_budget; rw [h]
  · unfold score_budget; rw [h]; rcases toIntOpt w <;> rfl
  · unfold dataset_scorer
    split
    · rfl
    · simp

/-- Claim C7, witness: the defaults at the unparseable cell given by the
empty string, a second cell 0, and a concrete raw one-row frame. -/
theorem scorers_total_on_unparseable_witness :
    toIntOpt (Value.vStr "") = none ∧
    score_recency (Value.vStr "") = 0 ∧ score_frequency (Value.vStr "") = 5 ∧
    score_project_focus (Value.vStr "") = 0 ∧
    score_engagement (Value.vStr "") = 5 ∧
    score_budget (Value.vStr "") (Value.vInt 0) = 5 ∧
    score_budget (Value.vInt 0) (Value.vStr "") = 5 ∧
    score_cross_platform Value.nan = 5 ∧ device_bonus Value.nan = 0 ∧
    (dataset_scorer c7frame).rows.length = c7frame.rows.length := by
  have h := scorers_total_on_unparseable (Value.vStr "") (Value.vInt 0)
    c7frame (by decide)
  exact ⟨by decide, h.1, h.2.1, h.2.2.1, h.2.2.2.1, h.2.2.2.2.1,
    h.2.2.2.2.2.1, h.2.2.2.2.2.2.1, h.2.2.2.2.2.2.2.1, h.2.2.2.2.2.2.2.2⟩

/-- Claim C8: the reason string of `reasoning_and_action` is exactly the
spec-described one: the six documented threshold checks evaluated in the
fixed order, triggered phrases joined with comma+space, and the generic
phrase "activity recorded" when none trigger. -/
theorem reasoning_matches_spec_thresholds (s : Int) (b : Breakdown) :
    (reasoning_and_action s b).1 = spec_reason_text b := by
  unfold reasoning_and_action spec_reason_text spec_reason_pairs
  by_cases h1 : 15 ≤ b.recency <;> by_cases h2 : 15 ≤ b.frequency <;>
    by_cases h3 : 10 ≤ b.project_focus <;>
    by_cases h4 : 15 ≤ b.cross_platform <;>
    by_cases h5 : 10 ≤ b.engagement <;>
    by_cases h6 : 3 ≤ b.device_bonus <;>
    simp [h1, h2, h3, h4, h5, h6]

/-- Inserting a row into the sorted list grows the length by one. -/
theorem length_insertByScoreDesc (r : Row) (l : List Row) :
    (insertByScoreDesc r l).length = l.length + 1 := by
  induction l with
  | nil => rfl
  | cons y ys ih =>
    unfold insertByScoreDesc
    split <;> simp [ih]

/-- The sort model preserves length. -/
theorem length_sort_values_score_desc (df : List Row) :
    (sort_values_score_desc df).length = df.length := by
  unfold sort_values_score_desc
  induction df with
  | nil => rfl
  | cons r rest ih => simp [List.foldr_cons, length_insertByScoreDesc, ih]

/-- Claim C2, counterexample: on a 16-row slice with top_n = 25 (a value
offered by the Top N menu), the leaderboard built for the report has 15
entries, not min(25, 16) = 16: `build_pdf_bytes` truncates again with
head(15). -/
theorem report_leaderboard_not_min_topn :
    ¬ ((report_leaderboard c2slice 25).length = min 25 c2slice.length) := by
  decide

/-- Claim C2, amended: for every slice and positive top_n, the leaderboard
of the generated report has exactly min(top_n, len(rows), 15) entries: the
module-level trigger cuts to top_n and `build_pdf_bytes` additionally caps
the table at 15 rows. -/
theorem report_leaderboard_length (filtered : List Row) (top_n : Nat)
    (h : 0 < top_n) :
    (report_leaderboard filtered top_n).length =
      min (min top_n filtered.length) 15 := by
  unfold report_leaderboard build_pdf_top_rows
  rw [List.length_take, length_sort_values_score_desc, List.length_take,
    length_sort_values_score_desc]
  omega

/-- Claim C2, witness: the spec example, top_n = 15 on a slice of 3 rows,
gives a leaderboard of exactly 3 entries. -/
theorem report_leaderboard_length_witness :
    0 < 15 ∧
    (report_leaderboard c2small 15).length = min (min 15 c2small.length) 15 :=
  ⟨by decide, report_leaderboard_length c2small 15 (by decide)⟩

end Theorems

end GMDashboard
